import Mathlib

/-!
# Project page of the AI document platform (`src/frontend/project.js`)

A shallow embedding of the outline, generation, refinement, note and export
operations of `project.js`.

* The module variable `currentProject` is passed explicitly in and out of every
  operation (`none` is the JavaScript `null` it holds before `init`).
* Every `fetch` round trip is a parameter of the operation that awaits it: the
  outcome `Fetched α` is either the message of a rejected `fetch` or the
  response, which is ok or not and whose body may fail to parse, be `null`, or
  carry any value as `data.detail`. The body of an ok response that parses is
  taken to have the shape the page expects (`α`).
* Every operation returns a `Run`: the new `currentProject`, the requests it
  issued (in order), the alerts it showed (in order) and the exception that
  escaped it, if any.
* Arrays are JavaScript references: `currentProject.outline || []` is the
  project's own array when it is present, so `push`, `splice` and index
  assignment write through to `currentProject`; when it is absent they act on
  a fresh array the project never sees.
* DOM rendering (`renderOutline`, `renderContent`, button labels) is left out.
* An operation is taken up to the completion of the requests it awaits.
-/

namespace ProjectJs

/-! ## Data model -/

/-- One entry of `generated_content`, with the fields `project.js` reads or writes. -/
structure Section where
  title : String
  content : String
  note : Option String
  feedback : Option String
  deriving DecidableEq, Repr

/-- An outline array; `none` is an empty slot (`null` once serialised). -/
abbrev Outline := List (Option String)

/-- The project record held in `currentProject`. -/
structure Project where
  topic : String
  type : String
  created_at : String
  outline : Option Outline
  generated_content : Option (List Section)
  deriving DecidableEq, Repr

/-- An optional argument of a request body: left out, `null`, or a string. -/
inductive Arg where
  | undefined
  | null
  | str (s : String)
  deriving DecidableEq, Repr

/-- The `updates` object of `updateProject`; a field that is `none` is not sent. -/
structure Updates where
  outline : Option Outline
  generated_content : Option (List Section)
  deriving DecidableEq, Repr

/-- A request issued to a collaborator. -/
inductive Call where
  | fetchProject (id : String)
  | updateProject (id : String) (updates : Updates)
  | suggestOutline (topic type : String)
  | generateContent (projectId : String)
  | refineContent (projectId : String) (sectionIndex : Int) (refinementPrompt : String)
      (feedback comment : Arg)
  deriving DecidableEq, Repr

/-- The value of `data.detail` in a body that is not `null`. A body that is not
an object, or has no such field, has an absent detail. Of a value that is
neither a string nor `null` (a number, a boolean, an array, an object) the page
observes two things: whether `||` keeps it (`truthy`), and the message that
`new Error` gives it, `String(value)` (`text`). -/
inductive Detail where
  | absent
  | null
  | str (s : String)
  | other (truthy : Bool) (text : String)
  deriving DecidableEq, Repr

/-- An HTTP response as an API function sees it, through `response.ok` and
`await response.json()`. -/
inductive Response (α : Type) where
  /-- The body is not JSON: `response.json()` rejects with `message`, whether
  the response is ok or not. -/
  | unparsable (ok : Bool) (message : String)
  /-- The response is ok and its body parses to `data`. -/
  | success (data : α)
  /-- The response is not ok and its body is the JSON text `null`. -/
  | failureNull
  /-- The response is not ok and its body is any other JSON value. -/
  | failure (detail : Detail)

/-- Outcome of a round trip: the message of a rejected `fetch`, or the response. -/
abbrev Fetched (α : Type) := Except String (Response α)

/-- An alert: message and type (`info`, `success`, `danger`). -/
structure Alert where
  message : String
  type : String
  deriving DecidableEq, Repr

/-- What one operation did. -/
structure Run where
  currentProject : Option Project
  calls : List Call
  alerts : List Alert
  uncaught : Option String
  deriving DecidableEq, Repr

/-! ## JavaScript primitives used by the page -/

/-- Characters removed by `String.prototype.trim`: white space and line terminators. -/
def isJsWhitespace (c : Char) : Bool :=
  let n := c.toNat
  n == 0x09 || n == 0x0A || n == 0x0B || n == 0x0C || n == 0x0D || n == 0x20 ||
  n == 0xA0 || n == 0x1680 || (0x2000 ≤ n && n ≤ 0x200A) || n == 0x2028 ||
  n == 0x2029 || n == 0x202F || n == 0x205F || n == 0x3000 || n == 0xFEFF

/-- The method `String.prototype.trim`. -/
def trim (s : String) : String :=
  String.mk ((s.data.dropWhile isJsWhitespace).reverse.dropWhile isJsWhitespace).reverse

/-- The message of `new Error(data.detail || generic)`: a detail that is absent,
`null`, the empty string or otherwise falsy gives the generic text; a non-empty
string gives itself; any other truthy value gives `String(value)`. -/
def orGeneric (detail : Detail) (generic : String) : String :=
  match detail with
  | .absent => generic
  | .null => generic
  | .str d => if d = "" then generic else d
  | .other truthy text => if truthy then text else generic

/-- Stands for the message of the `TypeError` raised by reading a property of
`null`; its wording is the engine's. -/
def typeErrorMessage : String := "TypeError"

/-- The method `Array.prototype.push` with one argument. -/
def push {α : Type} (a : List α) (x : α) : List α := a ++ [x]

/-- Start position of `splice`: a negative start counts from the end, and the
result is clamped to `[0, length]`. -/
def spliceStart (len : Nat) (start : Int) : Nat :=
  if start < 0 then ((len : Int) + start).toNat else min start.toNat len

/-- The array left by `Array.prototype.splice(start, deleteCount)`. -/
def splice {α : Type} (a : List α) (start : Int) (deleteCount : Nat) : List α :=
  let s := spliceStart a.length start
  a.take s ++ a.drop (s + min deleteCount (a.length - s))

/-- The array left by `a[index] = value`. An index in range overwrites the slot;
an index at or past the length grows the array, leaving empty slots between; a
negative index, or one past the largest array index, only sets a named property,
which neither `length`, `map`, `push`, `splice` nor `JSON.stringify` sees. -/
def setIndex (a : Outline) (index : Int) (value : Option String) : Outline :=
  if index < 0 then a
  else if index.toNat < a.length then a.set index.toNat value
  else if 4294967295 ≤ index then a
  else a ++ List.replicate (index.toNat - a.length) none ++ [value]

/-- Write an array mutated in place back into the project that owns it: the
array is the project's own when `outline` is present, a fresh one otherwise. -/
def aliased (p : Project) (outline : Outline) : Project :=
  match p.outline with
  | some _ => { p with outline := some outline }
  | none => p

/-! ## API functions -/

/-- The function `fetchProject`, applied to the outcome of its round trip. -/
def fetchProject (r : Fetched Project) : Except String Project :=
  match r with
  | .error e => .error e
  | .ok (.unparsable _ message) => .error message
  | .ok (.success data) => .ok data
  | .ok .failureNull => .error typeErrorMessage
  | .ok (.failure detail) => .error (orGeneric detail "Failed to fetch project")

/-- The function `updateProject`, applied to the outcome of its round trip. -/
def updateProject (r : Fetched Project) : Except String Project :=
  match r with
  | .error e => .error e
  | .ok (.unparsable _ message) => .error message
  | .ok (.success data) => .ok data
  | .ok .failureNull => .error typeErrorMessage
  | .ok (.failure detail) => .error (orGeneric detail "Failed to update project")

/-- The function `generateContentAPI`, applied to the outcome of its round trip. -/
def generateContentAPI {γ : Type} (r : Fetched γ) : Except String γ :=
  match r with
  | .error e => .error e
  | .ok (.unparsable _ message) => .error message
  | .ok (.success data) => .ok data
  | .ok .failureNull => .error typeErrorMessage
  | .ok (.failure detail) => .error (orGeneric detail "Failed to generate content")

/-- The function `refineContentAPI`, applied to the outcome of its round trip. -/
def refineContentAPI {γ : Type} (r : Fetched γ) : Except String γ :=
  match r with
  | .error e => .error e
  | .ok (.unparsable _ message) => .error message
  | .ok (.success data) => .ok data
  | .ok .failureNull => .error typeErrorMessage
  | .ok (.failure detail) => .error (orGeneric detail "Failed to refine content")

/-! ## Outline management -/

/-- The function `saveOutline`: one `updateProject` call carrying the outline;
on success `currentProject` becomes the returned record, on failure the error
message is shown and `currentProject` is left as it is. -/
def saveOutline (projectId : String) (cp : Option Project) (outline : Outline)
    (r : Fetched Project) : Run :=
  let call := Call.updateProject projectId { outline := some outline, generated_content := none }
  match updateProject r with
  | .ok updated =>
    { currentProject := some updated, calls := [call], alerts := [], uncaught := none }
  | .error message =>
    { currentProject := cp, calls := [call], alerts := [⟨message, "danger"⟩], uncaught := none }

/-- A run that does nothing. -/
def idle (cp : Option Project) : Run :=
  { currentProject := cp, calls := [], alerts := [], uncaught := none }

/-- A run ended by reading a property of `null`. -/
def typeError (cp : Option Project) : Run :=
  { currentProject := cp, calls := [], alerts := [], uncaught := some "TypeError" }

/-- The function `addSection`; `sectionName` is what `prompt` returned (`none`
when the dialog was cancelled). -/
def addSection (projectId : String) (cp : Option Project) (sectionName : Option String)
    (r : Fetched Project) : Run :=
  match cp with
  | none => typeError none
  | some p =>
    let outline := p.outline.getD []
    match sectionName with
    | none => idle (some p)
    | some name =>
      if name ≠ "" then
        let outline' := push outline (some name)
        saveOutline projectId (some (aliased p outline')) outline' r
      else idle (some p)

/-- The function `removeSection`. -/
def removeSection (projectId : String) (cp : Option Project) (index : Int)
    (r : Fetched Project) : Run :=
  match cp with
  | none => typeError none
  | some p =>
    let outline := p.outline.getD []
    let outline' := splice outline index 1
    saveOutline projectId (some (aliased p outline')) outline' r

/-- The function `updateSection`. -/
def updateSection (projectId : String) (cp : Option Project) (index : Int) (value : String)
    (r : Fetched Project) : Run :=
  match cp with
  | none => typeError none
  | some p =>
    let outline := p.outline.getD []
    let outline' := setIndex outline index (some value)
    saveOutline projectId (some (aliased p outline')) outline' r

/-! ## Content generation, refinement and feedback -/

/-- The function `generateContent`. The generation result is not used by the
page, so its type is left open. -/
def generateContent {γ : Type} (projectId : String) (cp : Option Project)
    (rGen : Fetched γ) (rFetch : Fetched Project) : Run :=
  match cp with
  | none => typeError none
  | some p =>
    if p.outline = none ∨ (p.outline.getD []).length = 0 then
      { currentProject := some p, calls := [],
        alerts := [⟨"Please add sections to the outline first", "danger"⟩], uncaught := none }
    else
      match generateContentAPI rGen with
      | .error message =>
        { currentProject := some p, calls := [.generateContent projectId],
          alerts := [⟨message, "danger"⟩], uncaught := none }
      | .ok _ =>
        match fetchProject rFetch with
        | .error message =>
          { currentProject := some p,
            calls := [.generateContent projectId, .fetchProject projectId],
            alerts := [⟨"Content generated successfully!", "success"⟩, ⟨message, "danger"⟩],
            uncaught := none }
        | .ok q =>
          { currentProject := some q,
            calls := [.generateContent projectId, .fetchProject projectId],
            alerts := [⟨"Content generated successfully!", "success"⟩], uncaught := none }

/-- The function `refineSection`; `input` is the value of the text field
`refine-input-index` (`none` when the page has no such field). -/
def refineSection {γ : Type} (projectId : String) (cp : Option Project) (index : Int)
    (input : Option String) (rRefine : Fetched γ) (rFetch : Fetched Project) : Run :=
  match input with
  | none => typeError cp
  | some value =>
    let prompt := trim value
    if prompt = "" then
      { currentProject := cp, calls := [],
        alerts := [⟨"Please enter refinement instructions", "danger"⟩], uncaught := none }
    else
      let call := Call.refineContent projectId index prompt .undefined .undefined
      match refineContentAPI rRefine with
      | .error message =>
        { currentProject := cp, calls := [call],
          alerts := [⟨"Refining content...", "info"⟩, ⟨message, "danger"⟩], uncaught := none }
      | .ok _ =>
        match fetchProject rFetch with
        | .error message =>
          { currentProject := cp, calls := [call, .fetchProject projectId],
            alerts := [⟨"Refining content...", "info"⟩, ⟨message, "danger"⟩],
            uncaught := none }
        | .ok q =>
          { currentProject := some q, calls := [call, .fetchProject projectId],
            alerts := [⟨"Refining content...", "info"⟩,
              ⟨"Content refined successfully!", "success"⟩], uncaught := none }

/-- The function `likeSection`. -/
def likeSection {γ : Type} (projectId : String) (cp : Option Project) (index : Int)
    (r : Fetched γ) : Run :=
  let call := Call.refineContent projectId index "User liked this section" (.str "like") .null
  match refineContentAPI r with
  | .ok _ =>
    { currentProject := cp, calls := [call],
      alerts := [⟨"Feedback recorded!", "success"⟩], uncaught := none }
  | .error message =>
    { currentProject := cp, calls := [call], alerts := [⟨message, "danger"⟩], uncaught := none }

/-! ## Outline suggestion, notes and export -/

/-- The body of an outline-suggestion response, with the field the page reads. -/
structure Suggestion where
  outline : Option Outline
  deriving DecidableEq, Repr

/-- The function `suggestOutlineAPI`, applied to the outcome of its round trip;
on success it returns `data.outline`. -/
def suggestOutlineAPI (r : Fetched Suggestion) : Except String (Option Outline) :=
  match r with
  | .error e => .error e
  | .ok (.unparsable _ message) => .error message
  | .ok (.success data) => .ok data.outline
  | .ok .failureNull => .error typeErrorMessage
  | .ok (.failure detail) => .error (orGeneric detail "Failed to suggest outline")

/-- The function `saveNote`; `input` is the value of the text area
`note-input-index` (`none` when the page has no such element). The note is
written into `generated_content[index]` in place, before the call; reading the
value of a missing element, `generated_content` of `null`, an entry of an absent
array or the `note` of a missing entry throws outside the `try` block. The
record returned by `updateProject` is not used. -/
def saveNote (projectId : String) (cp : Option Project) (index : Int)
    (input : Option String) (r : Fetched Project) : Run :=
  match input with
  | none => typeError cp
  | some note =>
    match cp with
    | none => typeError none
    | some p =>
      match p.generated_content with
      | none => typeError (some p)
      | some content =>
        if index < 0 then typeError (some p)
        else
          match content[index.toNat]? with
          | none => typeError (some p)
          | some entry =>
            let content' := content.set index.toNat { entry with note := some note }
            let p' := { p with generated_content := some content' }
            let call := Call.updateProject projectId
              { outline := none, generated_content := some content' }
            match updateProject r with
            | .ok _ =>
              { currentProject := some p', calls := [call], alerts := [], uncaught := none }
            | .error _ =>
              { currentProject := some p', calls := [call],
                alerts := [⟨"Failed to save note", "danger"⟩], uncaught := none }

/-- The constant `API_BASE_URL`. -/
def API_BASE_URL : String := "http://localhost:8000"

/-- The address `exportDocument` fetches. -/
def exportUrl (fileType projectId : String) : String :=
  API_BASE_URL ++ "/api/export/" ++ fileType ++ "/" ++ projectId

/-- An export response: `response.ok` and the outcome of `response.blob()`. -/
structure ExportResponse where
  ok : Bool
  blob : Except String Unit

/-- What `exportDocument` did: the addresses it fetched, the file names it
offered for download, the alerts it showed and the exception that escaped it. -/
structure ExportRun where
  currentProject : Option Project
  requests : List String
  downloads : List String
  alerts : List Alert
  uncaught : Option String
  deriving DecidableEq, Repr

/-- The function `exportDocument`, applied to the outcome of its `fetch`. -/
def exportDocument (projectId : String) (cp : Option Project)
    (r : Except String ExportResponse) : ExportRun :=
  match cp with
  | none =>
    { currentProject := none, requests := [], downloads := [], alerts := [],
      uncaught := some "TypeError" }
  | some p =>
    let fileType := p.type
    let url := exportUrl fileType projectId
    match r with
    | .error message =>
      { currentProject := some p, requests := [url], downloads := [],
        alerts := [⟨message, "danger"⟩], uncaught := none }
    | .ok response =>
      if !response.ok then
        { currentProject := some p, requests := [url], downloads := [],
          alerts := [⟨"Failed to export document", "danger"⟩], uncaught := none }
      else
        match response.blob with
        | .error message =>
          { currentProject := some p, requests := [url], downloads := [],
            alerts := [⟨message, "danger"⟩], uncaught := none }
        | .ok _ =>
          { currentProject := some p, requests := [url],
            downloads := [p.topic ++ "." ++ fileType],
            alerts := [⟨"Document exported successfully!", "success"⟩], uncaught := none }

/-! ## Observations used in the statements -/

/-- The persistence collaborator keeps to its contract on one round trip: it
fails, or the record it returns carries the outline it was sent. -/
def keepsOutline (r : Fetched Project) (outline : Outline) : Prop :=
  match updateProject r with
  | .ok updated => updated.outline = some outline
  | .error _ => True

/-- The outline the page works on: `currentProject.outline || []`. -/
def outlineOf (cp : Option Project) : Outline :=
  match cp with
  | some p => p.outline.getD []
  | none => []

/-- Whether a request goes to the refinement collaborator. -/
def isRefineCall (c : Call) : Bool :=
  match c with
  | .refineContent _ _ _ _ _ => true
  | _ => false

/-- The entry `generated_content[j]` of the snapshot, when there is one. -/
def sectionAt (cp : Option Project) (j : Nat) : Option Section :=
  match cp with
  | some p => (p.generated_content.getD [])[j]?
  | none => none

/-- The error rule of an API function `f` with generic text `generic` that
returns `result data` on success. A rejected `fetch` and a body that does not
parse (on an ok response or not) fail with the thrown error's own message. An
ok response whose body parses gives `result data`. A response that is not ok
fails: with the `TypeError` of reading `detail` of `null` when the body is
`null`; with the detail when that is a non-empty string; with `String(detail)`
when it is another truthy value; and with `generic` when it is absent, `null`,
the empty string or another falsy value. -/
def FollowsErrorRule {α β : Type} (f : Fetched α → Except String β) (generic : String)
    (result : α → β) : Prop :=
  (∀ e : String, f (.error e) = .error e) ∧
  (∀ (ok : Bool) (message : String), f (.ok (.unparsable ok message)) = .error message) ∧
  (∀ data : α, f (.ok (.success data)) = .ok (result data)) ∧
  f (.ok .failureNull) = .error typeErrorMessage ∧
  (∀ d : String, d ≠ "" → f (.ok (.failure (.str d))) = .error d) ∧
  (∀ text : String, f (.ok (.failure (.other true text))) = .error text) ∧
  f (.ok (.failure .absent)) = .error generic ∧
  f (.ok (.failure .null)) = .error generic ∧
  f (.ok (.failure (.str ""))) = .error generic ∧
  (∀ text : String, f (.ok (.failure (.other false text))) = .error generic)

/-! ## Sample data -/

/-- A project with a three-entry outline and no generated content. -/
def threeSections : Project :=
  { topic := "Quarterly Report", type := "docx", created_at := "2024-01-01",
    outline := some [some "Intro", some "Body", some "Conclusion"],
    generated_content := none }

/-- A round trip that fails in transport. -/
def offline {α : Type} : Fetched α := .error "Failed to fetch"

/-- A successful round trip returning `data`. -/
def respond {α : Type} (data : α) : Fetched α :=
  .ok (.success data)

/-- A project with an empty outline and no generated content. -/
def emptyProject : Project :=
  { topic := "Quarterly Report", type := "docx", created_at := "2024-01-01",
    outline := some [], generated_content := none }

/-- A project with a one-entry outline and no generated content. -/
def oneSection : Project :=
  { topic := "Quarterly Report", type := "docx", created_at := "2024-01-01",
    outline := some [some "Intro"], generated_content := none }

/-- A record with two generated sections for a one-entry outline. -/
def twoGenerated : Project :=
  { oneSection with
    generated_content := some
      [{ title := "Intro", content := "First.", note := none, feedback := none },
       { title := "Appendix", content := "Second.", note := none, feedback := none }] }

/-- A project with two outline entries and their two generated sections. -/
def readyProject : Project :=
  { topic := "Quarterly Report", type := "docx", created_at := "2024-01-01",
    outline := some [some "Intro", some "Body"],
    generated_content := some
      [{ title := "Intro", content := "Long introduction.", note := some "mine", feedback := none },
       { title := "Body", content := "Main part.", note := none, feedback := none }] }

/-- A record that differs from `readyProject` in its outline and in both sections. -/
def driftedProject : Project :=
  { readyProject with
    outline := some [some "Intro"],
    generated_content := some
      [{ title := "Intro", content := "Short.", note := some "mine", feedback := none },
       { title := "Body", content := "Rewritten too.", note := none, feedback := none }] }

/-- An array holding one object, the detail of a validation failure: it is
truthy, and `String` of it is `[object Object]`. -/
def validationErrors : Detail := .other true "[object Object]"

/-! ## Array lemmas -/

theorem spliceStart_natCast (len i : Nat) : spliceStart len (i : Int) = min i len := by
  unfold spliceStart
  have h : ¬ ((i : Int) < 0) := by omega
  simp [h]

theorem splice_one_natCast {α : Type} (a : List α) (i : Nat) :
    splice a (i : Int) 1 = a.eraseIdx i := by
  unfold splice
  simp only [spliceStart_natCast]
  rcases Nat.lt_or_ge i a.length with h | h
  · have h1 : min i a.length = i := Nat.min_eq_left (Nat.le_of_lt h)
    have h2 : min 1 (a.length - i) = 1 := Nat.min_eq_left (by omega)
    rw [h1, h2, List.eraseIdx_eq_take_drop_succ]
  · have h1 : min i a.length = a.length := Nat.min_eq_right h
    rw [h1, List.eraseIdx_of_length_le h]
    simp

theorem splice_of_length_le {α : Type} (a : List α) (index : Int) (n : Nat)
    (h : (a.length : Int) ≤ index) : splice a index n = a := by
  unfold splice spliceStart
  have h0 : ¬ (index < 0) := by omega
  have h1 : min index.toNat a.length = a.length := Nat.min_eq_right (by omega)
  simp [h0, h1]

/-! ## Lemmas on `saveOutline` -/

theorem saveOutline_calls (projectId : String) (cp : Option Project) (outline : Outline)
    (r : Fetched Project) :
    (saveOutline projectId cp outline r).calls =
      [.updateProject projectId { outline := some outline, generated_content := none }] := by
  unfold saveOutline
  cases updateProject r <;> rfl

theorem saveOutline_error (projectId : String) (cp : Option Project) (outline : Outline)
    (r : Fetched Project) (message : String) (h : updateProject r = .error message) :
    (saveOutline projectId cp outline r).currentProject = cp := by
  unfold saveOutline
  rw [h]

theorem saveOutline_ok (projectId : String) (cp : Option Project) (outline : Outline)
    (r : Fetched Project) (updated : Project) (h : updateProject r = .ok updated) :
    (saveOutline projectId cp outline r).currentProject = some updated := by
  unfold saveOutline
  rw [h]

theorem outlineOf_aliased (p : Project) (outline : Outline) (h : p.outline ≠ none) :
    outlineOf (some (aliased p outline)) = outline := by
  unfold outlineOf aliased
  cases hp : p.outline with
  | none => exact absurd hp h
  | some o => simp

theorem aliased_of_none (p : Project) (outline : Outline) (h : p.outline = none) :
    aliased p outline = p := by
  unfold aliased
  rw [h]

/-- After `saveOutline` on a project whose own array was mutated to `outline`,
with a collaborator that fails or returns the outline it was sent, the page
works on `outline`, unless the project had no outline and the call failed. -/
theorem outlineOf_saveOutline (projectId : String) (p : Project) (outline : Outline)
    (r : Fetched Project) (h : keepsOutline r outline) :
    outlineOf (saveOutline projectId (some (aliased p outline)) outline r).currentProject
        = outline ∨
      (p.outline = none ∧
        (saveOutline projectId (some (aliased p outline)) outline r).currentProject = some p) := by
  unfold keepsOutline at h
  cases hr : updateProject r with
  | ok updated =>
    rw [hr] at h
    left
    rw [saveOutline_ok _ _ _ _ _ hr]
    simp [outlineOf, h]
  | error message =>
    rw [saveOutline_error _ _ _ _ _ hr]
    cases hp : p.outline with
    | none => right; exact ⟨rfl, by rw [aliased_of_none _ _ hp]⟩
    | some o => left; exact outlineOf_aliased _ _ (by simp [hp])

theorem addSection_eq_saveOutline (projectId : String) (p : Project) (x : String)
    (r : Fetched Project) (hx : x ≠ "") :
    addSection projectId (some p) (some x) r =
      saveOutline projectId (some (aliased p (outlineOf (some p) ++ [some x])))
        (outlineOf (some p) ++ [some x]) r := by
  simp [addSection, hx, push, outlineOf]

theorem removeSection_eq_saveOutline (projectId : String) (q : Project) (index : Int)
    (r : Fetched Project) :
    removeSection projectId (some q) index r =
      saveOutline projectId (some (aliased q (splice (outlineOf (some q)) index 1)))
        (splice (outlineOf (some q)) index 1) r := by
  simp [removeSection, outlineOf]

theorem saveOutline_isSome (projectId : String) (q : Project) (outline : Outline)
    (r : Fetched Project) :
    ∃ q', (saveOutline projectId (some q) outline r).currentProject = some q' := by
  unfold saveOutline
  cases updateProject r with
  | ok updated => exact ⟨updated, rfl⟩
  | error message => exact ⟨q, rfl⟩

theorem splice_nil {α : Type} (index : Int) (n : Nat) : splice ([] : List α) index n = [] := by
  simp [splice]

/-- The outline the page works on after `removeSection`, for a collaborator that
fails or returns the outline it was sent. -/
theorem outlineOf_removeSection (projectId : String) (q : Project) (index : Int)
    (r : Fetched Project) (h : keepsOutline r (splice (outlineOf (some q)) index 1)) :
    outlineOf (removeSection projectId (some q) index r).currentProject
      = splice (outlineOf (some q)) index 1 := by
  rw [removeSection_eq_saveOutline]
  rcases outlineOf_saveOutline projectId q _ r h with h1 | ⟨h1, h2⟩
  · exact h1
  · rw [h2]
    have : outlineOf (some q) = [] := by simp [outlineOf, h1]
    rw [this, splice_nil]

/-- The outline the page works on after `addSection` with a non-empty title,
removed at an index up to the old length. -/
theorem splice_after_addSection (projectId : String) (p : Project) (x : String) (i : Nat)
    (r1 : Fetched Project) (hx : x ≠ "") (hi : i ≤ (outlineOf (some p)).length)
    (h1 : keepsOutline r1 (outlineOf (some p) ++ [some x])) :
    ∃ q, (addSection projectId (some p) (some x) r1).currentProject = some q ∧
      splice (outlineOf (some q)) (i : Int) 1 = (outlineOf (some p) ++ [some x]).eraseIdx i := by
  rw [addSection_eq_saveOutline _ _ _ _ hx]
  obtain ⟨q, hq⟩ := saveOutline_isSome projectId
    (aliased p (outlineOf (some p) ++ [some x])) (outlineOf (some p) ++ [some x]) r1
  refine ⟨q, hq, ?_⟩
  rcases outlineOf_saveOutline projectId p _ r1 h1 with h | ⟨h, h'⟩
  · rw [hq] at h
    rw [h, splice_one_natCast]
  · rw [hq] at h'
    have hq' : q = p := by injection h' 
    have h0 : outlineOf (some p) = [] := by simp [outlineOf, h]
    rw [h0] at hi 
    have hi0 : i = 0 := by simpa using hi
    subst hq'
    rw [h0, hi0]
    simp [splice_nil]

/-! ## Claims -/

/-- C1: on a project with outline `O` (an absent outline counts as empty), for a
non-empty title `x` and an index `i ≤ length O`, `addSection` with `x` followed
by `removeSection i` sends, and leaves the page working on, exactly `O ++ [x]`
with the entry at `i` deleted: entries before `i` stay, entries after `i` move
down by one, and for `i = length O` the result is `O` again. The persistence
collaborator is taken to fail or to return the outline it was sent. -/
theorem addSection_then_removeSection (projectId : String) (p : Project) (x : String)
    (i : Nat) (r1 r2 : Fetched Project)
    (hx : x ≠ "") (hi : i ≤ (outlineOf (some p)).length)
    (h1 : keepsOutline r1 (outlineOf (some p) ++ [some x])) :
    ∃ E : Outline,
      (removeSection projectId
          (addSection projectId (some p) (some x) r1).currentProject (i : Int) r2).calls
        = [.updateProject projectId { outline := some E, generated_content := none }] ∧
      (keepsOutline r2 E →
        outlineOf (removeSection projectId
          (addSection projectId (some p) (some x) r1).currentProject (i : Int) r2).currentProject
          = E) ∧
      E = (outlineOf (some p) ++ [some x]).eraseIdx i ∧
      E.length = (outlineOf (some p)).length ∧
      (∀ j, j < i → E[j]? = (outlineOf (some p) ++ [some x])[j]?) ∧
      (∀ j, i ≤ j → E[j]? = (outlineOf (some p) ++ [some x])[j + 1]?) ∧
      (i = (outlineOf (some p)).length → E = outlineOf (some p)) := by
  refine ⟨(outlineOf (some p) ++ [some x]).eraseIdx i, ?_, ?_, rfl, ?_, ?_, ?_, ?_⟩
  · obtain ⟨q, hq, hs⟩ := splice_after_addSection projectId p x i r1 hx hi h1
    rw [hq, removeSection_eq_saveOutline, saveOutline_calls, hs]
  · intro h2
    obtain ⟨q, hq, hs⟩ := splice_after_addSection projectId p x i r1 hx hi h1
    rw [hq, outlineOf_removeSection _ _ _ _ (by rw [hs]; exact h2), hs]
  · rw [List.length_eraseIdx]
    simp
    omega
  · intro j hj
    rw [List.getElem?_eraseIdx]
    simp [hj]
  · intro j hj
    rw [List.getElem?_eraseIdx]
    have : ¬ j < i := by omega
    simp [this]
  · intro h
    rw [h, List.eraseIdx_append_of_length_le (Nat.le_refl _)]
    simp

/-- C1 at `["Intro", "Body", "Conclusion"]`, title `"Extra"`, index `1`. -/
theorem addSection_then_removeSection_witness :
    (removeSection "7"
        (addSection "7" (some threeSections) (some "Extra") offline).currentProject 1
        offline).calls
      = [.updateProject "7"
          { outline := some [some "Intro", some "Conclusion", some "Extra"],
            generated_content := none }] := by
  obtain ⟨E, hcalls, _, hE, _⟩ :=
    addSection_then_removeSection "7" threeSections "Extra" 1 offline offline
      (by decide) (by decide) (by simp [keepsOutline, updateProject, offline])
  have h : E = [some "Intro", some "Conclusion", some "Extra"] := by rw [hE]; decide
  rw [← h]
  exact hcalls

/-! ## Further lemmas on the outline operations -/

theorem spliceStart_le (len : Nat) (start : Int) : spliceStart len start ≤ len := by
  unfold spliceStart
  split
  · omega
  · exact Nat.min_le_right _ _

theorem splice_one {α : Type} (a : List α) (index : Int) :
    splice a index 1 = a.eraseIdx (spliceStart a.length index) := by
  have hle := spliceStart_le a.length index
  unfold splice
  rcases Nat.lt_or_ge (spliceStart a.length index) a.length with h | h
  · have h2 : min 1 (a.length - spliceStart a.length index) = 1 := Nat.min_eq_left (by omega)
    simp only [h2]
    rw [List.eraseIdx_eq_take_drop_succ]
  · rw [List.eraseIdx_of_length_le h]
    have h1 : spliceStart a.length index = a.length := Nat.le_antisymm hle h
    simp [h1]

theorem aliased_eq (p : Project) (outline : Outline) :
    aliased p outline = { p with outline := p.outline.map fun _ => outline } := by
  unfold aliased
  cases hp : p.outline with
  | none =>
    cases p
    simp_all
  | some o => simp

theorem updateSection_eq_saveOutline (projectId : String) (p : Project) (index : Int)
    (value : String) (r : Fetched Project) :
    updateSection projectId (some p) index value r =
      saveOutline projectId (some (aliased p (setIndex (outlineOf (some p)) index (some value))))
        (setIndex (outlineOf (some p)) index (some value)) r := by
  simp [updateSection, outlineOf]

/-! ## Claims on validation and persistence of outline edits -/

/-- C2 as stated fails: `removeSection 5` on a three-entry outline issues a
project-update call, and `removeSection (-1)` removes the last entry. -/
theorem removeSection_out_of_range_counterexample :
    (removeSection "7" (some threeSections) 5 offline).calls ≠ [] ∧
    (outlineOf (removeSection "7" (some threeSections) (-1) offline).currentProject).length
      ≠ (outlineOf (some threeSections)).length := by
  decide

/-- C2, amended: for an index outside `[0, length)` `removeSection` does not
fail and issues exactly one project-update call. For an index at or past the
length the call carries the unchanged outline and, if the call fails, the
snapshot is unchanged; for a negative index the entry at `max (length + index) 0`
is removed, if there is one. -/
theorem removeSection_out_of_range (projectId : String) (p : Project) (index : Int)
    (r : Fetched Project)
    (h : index < 0 ∨ ((outlineOf (some p)).length : Int) ≤ index) :
    ∃ E : Outline,
      (removeSection projectId (some p) index r).calls
        = [.updateProject projectId { outline := some E, generated_content := none }] ∧
      (removeSection projectId (some p) index r).uncaught = none ∧
      E = (if index < 0 then
            (outlineOf (some p)).eraseIdx (((outlineOf (some p)).length : Int) + index).toNat
          else outlineOf (some p)) ∧
      (∀ message, updateProject r = .error message →
        (removeSection projectId (some p) index r).currentProject
          = some { p with outline := p.outline.map fun _ => E }) ∧
      (∀ updated, updateProject r = .ok updated →
        (removeSection projectId (some p) index r).currentProject = some updated) := by
  refine ⟨splice (outlineOf (some p)) index 1, ?_, ?_, ?_, ?_, ?_⟩
  · rw [removeSection_eq_saveOutline, saveOutline_calls]
  · rw [removeSection_eq_saveOutline]
    unfold saveOutline
    cases updateProject r <;> rfl
  · rcases h with hneg | hge
    · rw [splice_one]
      simp [spliceStart, hneg]
    · have hn : ¬ index < 0 := by omega
      rw [splice_of_length_le _ _ _ hge]
      simp [hn]
  · intro message hm
    rw [removeSection_eq_saveOutline, saveOutline_error _ _ _ _ _ hm, aliased_eq]
  · intro updated hu
    rw [removeSection_eq_saveOutline, saveOutline_ok _ _ _ _ _ hu]

/-- C2 amended, at the scenario of the specification: `removeSection 5` on a
three-entry outline sends the three entries and leaves the snapshot as it was. -/
theorem removeSection_out_of_range_witness :
    (removeSection "7" (some threeSections) 5 offline).calls
      = [.updateProject "7" { outline := threeSections.outline, generated_content := none }] ∧
    (removeSection "7" (some threeSections) 5 offline).currentProject = some threeSections := by
  obtain ⟨E, hcalls, _, hE, hcp, _⟩ :=
    removeSection_out_of_range "7" threeSections 5 offline (Or.inr (by decide))
  have hE3 : E = [some "Intro", some "Body", some "Conclusion"] := by rw [hE]; decide
  subst hE3
  exact ⟨hcalls, hcp "Failed to fetch" rfl⟩

/-- C3 as stated fails: a title of two blanks is empty after trimming, yet
`addSection` appends it and issues a project-update call. -/
theorem addSection_blank_title_counterexample :
    trim "  " = "" ∧
    (addSection "7" (some threeSections) (some "  ") offline).calls ≠ [] ∧
    outlineOf (addSection "7" (some threeSections) (some "  ") offline).currentProject
      ≠ outlineOf (some threeSections) := by
  decide

/-- C3, amended: `addSection` does nothing (outline unchanged, no project-update
call, no alert) exactly when the title is the empty string or the dialog was
cancelled; every other title, a blank one included, is appended untrimmed at the
end and sent in one project-update call. -/
theorem addSection_title_check (projectId : String) (p : Project) (name : String)
    (r : Fetched Project) :
    addSection projectId (some p) none r
      = { currentProject := some p, calls := [], alerts := [], uncaught := none } ∧
    (name = "" →
      addSection projectId (some p) (some name) r
        = { currentProject := some p, calls := [], alerts := [], uncaught := none }) ∧
    (name ≠ "" →
      (addSection projectId (some p) (some name) r).calls
        = [.updateProject projectId
            { outline := some (outlineOf (some p) ++ [some name]), generated_content := none }] ∧
      (∀ message, updateProject r = .error message →
        (addSection projectId (some p) (some name) r).currentProject
          = some { p with outline := p.outline.map fun _ => outlineOf (some p) ++ [some name] }) ∧
      (∀ updated, updateProject r = .ok updated →
        (addSection projectId (some p) (some name) r).currentProject = some updated)) := by
  refine ⟨rfl, ?_, ?_⟩
  · intro h
    simp [addSection, h, idle]
  · intro h
    rw [addSection_eq_saveOutline _ _ _ _ h]
    refine ⟨saveOutline_calls _ _ _ _, ?_, ?_⟩
    · intro message hm
      rw [saveOutline_error _ _ _ _ _ hm, aliased_eq]
    · intro updated hu
      exact saveOutline_ok _ _ _ _ _ hu

/-- C3 amended, at the titles `""` and `"Extra"`. -/
theorem addSection_title_check_witness :
    (addSection "7" (some threeSections) (some "") offline).calls = [] ∧
    (addSection "7" (some threeSections) (some "Extra") offline).calls
      = [.updateProject "7"
          { outline := some [some "Intro", some "Body", some "Conclusion", some "Extra"],
            generated_content := none }] := by
  refine ⟨?_, ?_⟩
  · rw [(addSection_title_check "7" threeSections "" offline).2.1 rfl]
  · exact ((addSection_title_check "7" threeSections "Extra" offline).2.2 (by decide)).1

/-- The array after `a[index] = value` for an index in range. -/
theorem setIndex_in_range (a : Outline) (index : Int) (value : Option String)
    (h0 : 0 ≤ index) (h1 : index < (a.length : Int)) :
    setIndex a index value = a.set index.toNat value := by
  unfold setIndex
  have hlt : index.toNat < a.length := by omega
  have hn : ¬ index < 0 := by omega
  simp [hn, hlt]

/-- C4 as stated fails: `updateSection` with an empty title overwrites the
entry and issues a project-update call, and with an index past the end it grows
the outline. -/
theorem updateSection_no_validation_counterexample :
    (updateSection "7" (some threeSections) 0 "" offline).calls ≠ [] ∧
    outlineOf (updateSection "7" (some threeSections) 0 "" offline).currentProject
      = [some "", some "Body", some "Conclusion"] ∧
    (updateSection "7" (some threeSections) 5 "Late" offline).calls ≠ [] ∧
    outlineOf (updateSection "7" (some threeSections) 5 "Late" offline).currentProject
      = [some "Intro", some "Body", some "Conclusion", none, none, some "Late"] := by
  decide

/-- C4, amended: `updateSection` validates nothing, never fails and always
issues exactly one project-update call carrying the outline after the
assignment. For an index inside `[0, length)` that outline has exactly the entry
at the index replaced by the title, empty or not, with the length and every
other entry preserved; for a negative index it is the old outline; for an index
at or past the length (and below `2^32 - 1`) it is the old outline grown to
`index + 1` entries, the title last. If the call fails, the snapshot keeps the
assigned outline. -/
theorem updateSection_assigns (projectId : String) (p : Project) (index : Int)
    (value : String) (r : Fetched Project) :
    ∃ E : Outline,
      (updateSection projectId (some p) index value r).calls
        = [.updateProject projectId { outline := some E, generated_content := none }] ∧
      (updateSection projectId (some p) index value r).uncaught = none ∧
      (0 ≤ index → index < ((outlineOf (some p)).length : Int) →
        E.length = (outlineOf (some p)).length ∧
        E[index.toNat]? = some (some value) ∧
        ∀ j, j ≠ index.toNat → E[j]? = (outlineOf (some p))[j]?) ∧
      (index < 0 → E = outlineOf (some p)) ∧
      (((outlineOf (some p)).length : Int) ≤ index → index < 4294967295 →
        E.length = index.toNat + 1 ∧
        E[index.toNat]? = some (some value) ∧
        ∀ j, j < (outlineOf (some p)).length → E[j]? = (outlineOf (some p))[j]?) ∧
      (∀ message, updateProject r = .error message →
        (updateSection projectId (some p) index value r).currentProject
          = some { p with outline := p.outline.map fun _ => E }) ∧
      (∀ updated, updateProject r = .ok updated →
        (updateSection projectId (some p) index value r).currentProject = some updated) := by
  refine ⟨setIndex (outlineOf (some p)) index (some value), ?_, ?_, ?_, ?_, ?_, ?_, ?_⟩
  · rw [updateSection_eq_saveOutline, saveOutline_calls]
  · rw [updateSection_eq_saveOutline]
    unfold saveOutline
    cases updateProject r <;> rfl
  · intro h0 h1
    have hlt : index.toNat < (outlineOf (some p)).length := by omega
    rw [setIndex_in_range _ _ _ h0 h1]
    refine ⟨List.length_set _ _ _, ?_, ?_⟩
    · simp [List.getElem?_set, hlt]
    · intro j hj
      simp [List.getElem?_set, Ne.symm hj]
  · intro hneg
    simp [setIndex, hneg]
  · intro hge hsmall
    have hn : ¬ index < 0 := by omega
    have hnlt : ¬ index.toNat < (outlineOf (some p)).length := by omega
    have hnbig : ¬ (4294967295 : Int) ≤ index := by omega
    simp only [setIndex, hn, hnlt, hnbig, if_false]
    refine ⟨?_, ?_, ?_⟩
    · simp
      omega
    · rw [List.getElem?_append_right (by simp; omega)]
      have hz : index.toNat - (outlineOf (some p) ++
          List.replicate (index.toNat - (outlineOf (some p)).length) none).length = 0 := by
        simp
        omega
      rw [hz]
      rfl
    · intro j hj
      rw [List.append_assoc, List.getElem?_append_left hj]
  · intro message hm
    rw [updateSection_eq_saveOutline, saveOutline_error _ _ _ _ _ hm, aliased_eq]
  · intro updated hu
    rw [updateSection_eq_saveOutline, saveOutline_ok _ _ _ _ _ hu]

/-- C4 amended, at index `1` of `["Intro", "Body", "Conclusion"]` with an empty title. -/
theorem updateSection_assigns_witness :
    (updateSection "7" (some threeSections) 1 "" offline).calls
      = [.updateProject "7"
          { outline := some [some "Intro", some "", some "Conclusion"],
            generated_content := none }] := by
  obtain ⟨E, hcalls, _, hin, _⟩ := updateSection_assigns "7" threeSections 1 "" offline
  obtain ⟨hlen, h1, hrest⟩ := hin (by decide) (by decide)
  have h0 := hrest 0 (by decide)
  have h2 := hrest 2 (by decide)
  have hE : E = [some "Intro", some "", some "Conclusion"] := by
    match E, hlen, h0, h1, h2 with
    | [a, b, c], _, h0, h1, h2 =>
      simp [outlineOf, threeSections] at h0 h1 h2
      simp [h0, h1, h2]
  rw [hcalls, hE]

theorem saveOutline_error_alerts (projectId : String) (cp : Option Project) (outline : Outline)
    (r : Fetched Project) (message : String) (h : updateProject r = .error message) :
    (saveOutline projectId cp outline r).alerts = [⟨message, "danger"⟩] := by
  unfold saveOutline
  rw [h]

/-- C5 as stated fails: with the project-update call failing, the snapshot
keeps the appended, the spliced and the assigned outline. -/
theorem outline_rollback_counterexample :
    updateProject (offline : Fetched Project) = .error "Failed to fetch" ∧
    outlineOf (addSection "7" (some threeSections) (some "Extra") offline).currentProject
      = [some "Intro", some "Body", some "Conclusion", some "Extra"] ∧
    outlineOf (removeSection "7" (some threeSections) 0 offline).currentProject
      = [some "Body", some "Conclusion"] ∧
    outlineOf (updateSection "7" (some threeSections) 0 "Preface" offline).currentProject
      = [some "Preface", some "Body", some "Conclusion"] ∧
    outlineOf (some threeSections) = [some "Intro", some "Body", some "Conclusion"] :=
  ⟨rfl, by decide⟩

/-- C5, amended: when the project-update collaborator fails, `currentProject`
is not replaced and nothing is rolled back. The error message is shown as a
danger alert, and the snapshot differs from the one before the operation at most
in its outline: a present outline holds the result of the mutation (it was
applied in place before the call), an absent outline stays absent. -/
theorem outline_mutation_kept_on_failure (projectId : String) (p : Project)
    (r : Fetched Project) (message : String) (h : updateProject r = .error message) :
    (∀ name : String, name ≠ "" →
      (addSection projectId (some p) (some name) r).currentProject
          = some { p with outline := p.outline.map fun _ => push (outlineOf (some p)) (some name) } ∧
      (addSection projectId (some p) (some name) r).alerts = [⟨message, "danger"⟩]) ∧
    (∀ index : Int,
      (removeSection projectId (some p) index r).currentProject
          = some { p with outline := p.outline.map fun _ => splice (outlineOf (some p)) index 1 } ∧
      (removeSection projectId (some p) index r).alerts = [⟨message, "danger"⟩]) ∧
    (∀ (index : Int) (value : String),
      (updateSection projectId (some p) index value r).currentProject
          = some { p with outline :=
              p.outline.map fun _ => setIndex (outlineOf (some p)) index (some value) } ∧
      (updateSection projectId (some p) index value r).alerts = [⟨message, "danger"⟩]) := by
  refine ⟨?_, ?_, ?_⟩
  · intro name hname
    rw [addSection_eq_saveOutline _ _ _ _ hname, saveOutline_error _ _ _ _ _ h,
      saveOutline_error_alerts _ _ _ _ _ h, aliased_eq]
    exact ⟨rfl, rfl⟩
  · intro index
    rw [removeSection_eq_saveOutline, saveOutline_error _ _ _ _ _ h,
      saveOutline_error_alerts _ _ _ _ _ h, aliased_eq]
    exact ⟨rfl, rfl⟩
  · intro index value
    rw [updateSection_eq_saveOutline, saveOutline_error _ _ _ _ _ h,
      saveOutline_error_alerts _ _ _ _ _ h, aliased_eq]
    exact ⟨rfl, rfl⟩

/-- C5 amended, at `["Intro", "Body", "Conclusion"]` with the network down:
removing entry `0` leaves the snapshot with the two remaining entries. -/
theorem outline_mutation_kept_on_failure_witness :
    (removeSection "7" (some threeSections) 0 offline).currentProject
      = some { threeSections with outline := some [some "Body", some "Conclusion"] } :=
  ((outline_mutation_kept_on_failure "7" threeSections offline "Failed to fetch" rfl).2.1 0).1

/-! ## Claims on content generation -/

/-- C6: when the outline is absent or empty, `generateContent` shows the danger
alert and returns at once: no request goes to the generation collaborator or to
the project fetch, and the snapshot (outline and generated content) is unchanged. -/
theorem generateContent_empty_outline {γ : Type} (projectId : String) (p : Project)
    (rGen : Fetched γ) (rFetch : Fetched Project)
    (h : p.outline = none ∨ p.outline = some []) :
    generateContent projectId (some p) rGen rFetch
      = { currentProject := some p, calls := [],
          alerts := [⟨"Please add sections to the outline first", "danger"⟩],
          uncaught := none } := by
  unfold generateContent
  rcases h with h | h <;> simp [h]

/-- C6 at a project with the empty outline and collaborators that would succeed. -/
theorem generateContent_empty_outline_witness :
    (generateContent "7" (some emptyProject) (respond ()) (respond twoGenerated)).calls = [] ∧
    (generateContent "7" (some emptyProject) (respond ()) (respond twoGenerated)).currentProject
      = some emptyProject := by
  rw [generateContent_empty_outline "7" emptyProject (respond ()) (respond twoGenerated)
    (Or.inr rfl)]
  exact ⟨rfl, rfl⟩

/-- C7 as stated fails: on a one-entry outline, with a generation result of
length zero and a fetched record holding two generated sections, the record is
installed and only the success alert is shown. -/
theorem generateContent_length_counterexample :
    (outlineOf (some oneSection)).length = 1 ∧
    (generateContent "7" (some oneSection) (respond ([] : List Section))
        (respond twoGenerated)).currentProject = some twoGenerated ∧
    (twoGenerated.generated_content.getD []).length = 2 ∧
    (generateContent "7" (some oneSection) (respond ([] : List Section))
        (respond twoGenerated)).alerts = [⟨"Content generated successfully!", "success"⟩] := by
  decide

/-- C7, amended: on a non-empty outline `generateContent` either fails, when
the generation call or the project fetch fails, showing the error and leaving the
snapshot unchanged, or succeeds and installs exactly the record returned by the
project fetch. The page compares no lengths: the generation result is not
inspected, and the installed generated content has the outline's length only if
the fetched record's has. -/
theorem generateContent_installs_fetched {γ : Type} (projectId : String) (p : Project)
    (rGen : Fetched γ) (rFetch : Fetched Project)
    (h : 0 < (outlineOf (some p)).length) :
    (∀ message, generateContentAPI rGen = .error message →
      generateContent projectId (some p) rGen rFetch
        = { currentProject := some p, calls := [.generateContent projectId],
            alerts := [⟨message, "danger"⟩], uncaught := none }) ∧
    (∀ result message, generateContentAPI rGen = .ok result →
      fetchProject rFetch = .error message →
      generateContent projectId (some p) rGen rFetch
        = { currentProject := some p,
            calls := [.generateContent projectId, .fetchProject projectId],
            alerts := [⟨"Content generated successfully!", "success"⟩, ⟨message, "danger"⟩],
            uncaught := none }) ∧
    (∀ result q, generateContentAPI rGen = .ok result → fetchProject rFetch = .ok q →
      generateContent projectId (some p) rGen rFetch
        = { currentProject := some q,
            calls := [.generateContent projectId, .fetchProject projectId],
            alerts := [⟨"Content generated successfully!", "success"⟩],
            uncaught := none }) := by
  have hc : ¬ (p.outline = none ∨ (p.outline.getD []).length = 0) := by
    intro hor
    rcases hor with h0 | h0
    · simp [outlineOf, h0] at h
    · simp only [outlineOf] at h
      omega
  refine ⟨?_, ?_, ?_⟩
  · intro message hg
    simp only [generateContent, hc, if_false, hg]
  · intro result message hg hf
    simp only [generateContent, hc, if_false, hg, hf]
  · intro result q hg hf
    simp only [generateContent, hc, if_false, hg, hf]

/-- C7 amended, at a one-entry outline with the generation call failing. -/
theorem generateContent_installs_fetched_witness :
    (generateContent "7" (some oneSection) (offline : Fetched Unit)
        (respond twoGenerated)).currentProject = some oneSection := by
  rw [(generateContent_installs_fetched "7" oneSection (offline : Fetched Unit)
    (respond twoGenerated) (by decide)).1 "Failed to fetch" rfl]

/-! ## Claims on refinement and feedback -/

/-- C8: `refineSection` sends a request to the refinement collaborator exactly
when the instruction is non-empty after trimming. When it is empty the danger
alert is shown, no request is issued and the snapshot is unchanged; when it is
non-empty the first request is the refinement request for that section, carrying
the trimmed instruction with neither feedback tag nor comment, and it is the
only refinement request. -/
theorem refineSection_validates_instruction {γ : Type} (projectId : String)
    (cp : Option Project) (index : Int) (value : String)
    (rRefine : Fetched γ) (rFetch : Fetched Project) :
    ((∃ c ∈ (refineSection projectId cp index (some value) rRefine rFetch).calls,
        isRefineCall c = true) ↔ trim value ≠ "") ∧
    (trim value = "" →
      refineSection projectId cp index (some value) rRefine rFetch
        = { currentProject := cp, calls := [],
            alerts := [⟨"Please enter refinement instructions", "danger"⟩],
            uncaught := none }) ∧
    (trim value ≠ "" →
      (refineSection projectId cp index (some value) rRefine rFetch).calls.head?
          = some (.refineContent projectId index (trim value) .undefined .undefined) ∧
      ∀ c ∈ (refineSection projectId cp index (some value) rRefine rFetch).calls,
        isRefineCall c = true →
          c = .refineContent projectId index (trim value) .undefined .undefined) := by
  by_cases ht : trim value = ""
  · simp [refineSection, ht]
  · cases hr : refineContentAPI rRefine with
    | error message => simp [refineSection, ht, hr, isRefineCall]
    | ok result =>
      cases hf : fetchProject rFetch with
      | error message => simp [refineSection, ht, hr, hf, isRefineCall]
      | ok q => simp [refineSection, ht, hr, hf, isRefineCall]

/-- C8 at a blank instruction and at the instruction `"  make it shorter "`. -/
theorem refineSection_validates_instruction_witness :
    (refineSection "7" (some readyProject) 1 (some " \t ") (respond ())
        (respond readyProject)).calls = [] ∧
    (refineSection "7" (some readyProject) 1 (some "  make it shorter ") (respond ())
        (respond readyProject)).calls.head?
      = some (.refineContent "7" 1 "make it shorter" .undefined .undefined) := by
  refine ⟨?_, ?_⟩
  · rw [(refineSection_validates_instruction "7" (some readyProject) 1 " \t " (respond ())
      (respond readyProject)).2.1 (by decide)]
  · have h := ((refineSection_validates_instruction "7" (some readyProject) 1
      "  make it shorter " (respond ()) (respond readyProject)).2.2 (by decide)).1
    rw [h]
    decide

/-- C9 as stated fails: `refineSection 0` with a non-empty instruction installs
the fetched record, whose section `1` and outline differ from the snapshot. -/
theorem refineSection_frame_counterexample :
    trim "make it shorter" ≠ "" ∧
    sectionAt (refineSection "7" (some readyProject) 0 (some "make it shorter") (respond ())
        (respond driftedProject)).currentProject 1
      ≠ sectionAt (some readyProject) 1 ∧
    outlineOf (refineSection "7" (some readyProject) 0 (some "make it shorter") (respond ())
        (respond driftedProject)).currentProject
      ≠ outlineOf (some readyProject) := by
  decide

/-- C9, amended: with a non-empty instruction `refineSection` never edits the
snapshot itself. If the refinement call or the project fetch fails, the whole
snapshot (every section and the outline) is unchanged; if both succeed, the
snapshot becomes exactly the fetched record, so a section `j` other than the
refined one, and the outline, are unchanged whenever the fetched record has
them unchanged. -/
theorem refineSection_snapshot {γ : Type} (projectId : String) (cp : Option Project)
    (index : Int) (value : String) (rRefine : Fetched γ) (rFetch : Fetched Project)
    (h : trim value ≠ "") :
    (∀ message, refineContentAPI rRefine = .error message →
      (refineSection projectId cp index (some value) rRefine rFetch).currentProject = cp) ∧
    (∀ result message, refineContentAPI rRefine = .ok result →
      fetchProject rFetch = .error message →
      (refineSection projectId cp index (some value) rRefine rFetch).currentProject = cp) ∧
    (∀ result q, refineContentAPI rRefine = .ok result → fetchProject rFetch = .ok q →
      (refineSection projectId cp index (some value) rRefine rFetch).currentProject = some q ∧
      (∀ j : Nat, (j : Int) ≠ index → sectionAt (some q) j = sectionAt cp j →
        sectionAt (refineSection projectId cp index (some value) rRefine rFetch).currentProject j
          = sectionAt cp j) ∧
      (outlineOf (some q) = outlineOf cp →
        outlineOf (refineSection projectId cp index (some value) rRefine rFetch).currentProject
          = outlineOf cp)) := by
  refine ⟨?_, ?_, ?_⟩
  · intro message hr
    simp [refineSection, h, hr]
  · intro result message hr hf
    simp [refineSection, h, hr, hf]
  · intro result q hr hf
    have hq : (refineSection projectId cp index (some value) rRefine rFetch).currentProject
        = some q := by
      simp [refineSection, h, hr, hf]
    rw [hq]
    exact ⟨rfl, fun _ _ hj => hj, fun ho => ho⟩

/-- C9 amended, at a refinement of section `0` whose project fetch fails. -/
theorem refineSection_snapshot_witness :
    (refineSection "7" (some readyProject) 0 (some "make it shorter") (respond ())
        offline).currentProject = some readyProject :=
  (refineSection_snapshot "7" (some readyProject) 0 "make it shorter" (respond ()) offline
    (by decide)).2.1 () "Failed to fetch" rfl rfl

/-- C10 as stated fails: after a successful `likeSection 0` the feedback of
section `0` in the snapshot is still absent, not the `like` tag. -/
theorem likeSection_feedback_counterexample :
    (likeSection "7" (some readyProject) 0 (respond ())).alerts
      = [⟨"Feedback recorded!", "success"⟩] ∧
    (sectionAt (likeSection "7" (some readyProject) 0 (respond ())).currentProject 0).map
        (fun s => s.feedback) = some none ∧
    (sectionAt (likeSection "7" (some readyProject) 0 (respond ())).currentProject 0).map
        (fun s => s.feedback) ≠ some (some "like") := by
  decide

/-- C10, amended: `likeSection` issues exactly one request, to the refinement
collaborator, for the given section with the instruction `User liked this
section`, the feedback tag `like` and a `null` comment, and never touches the
snapshot: title, content, note and feedback of every section and the outline
are as before. On success the only other effect is the `Feedback recorded!`
alert; the tag is not written into the snapshot. -/
theorem likeSection_sends_tag_only {γ : Type} (projectId : String) (cp : Option Project)
    (index : Int) (r : Fetched γ) :
    (likeSection projectId cp index r).currentProject = cp ∧
    (likeSection projectId cp index r).calls
      = [.refineContent projectId index "User liked this section" (.str "like") .null] ∧
    (likeSection projectId cp index r).uncaught = none ∧
    (∀ result, refineContentAPI r = .ok result →
      (likeSection projectId cp index r).alerts = [⟨"Feedback recorded!", "success"⟩]) ∧
    (∀ message, refineContentAPI r = .error message →
      (likeSection projectId cp index r).alerts = [⟨message, "danger"⟩]) := by
  unfold likeSection
  cases refineContentAPI r with
  | error message => simp
  | ok result => simp

/-- C10 amended, at a successful `likeSection 0`. -/
theorem likeSection_sends_tag_only_witness :
    (likeSection "7" (some readyProject) 0 (respond ())).currentProject = some readyProject ∧
    (likeSection "7" (some readyProject) 0 (respond ())).alerts
      = [⟨"Feedback recorded!", "success"⟩] :=
  ⟨(likeSection_sends_tag_only "7" (some readyProject) 0 (respond ())).1,
   (likeSection_sends_tag_only "7" (some readyProject) 0 (respond ())).2.2.2.1 () rfl⟩

/-! ## Claims on export, API errors and notes -/

/-- C11 as stated fails: for a freshly created project, with an empty outline
and no generated content, `exportDocument` issues the export request, and with
an ok response it offers a file for download. -/
theorem exportDocument_no_gate_counterexample :
    emptyProject.generated_content = none ∧
    (exportDocument "7" (some emptyProject) (.error "Failed to fetch")).requests
      = ["http://localhost:8000/api/export/docx/7"] ∧
    (exportDocument "7" (some emptyProject) (.ok ⟨true, .ok ()⟩)).downloads
      = ["Quarterly Report.docx"] ∧
    (exportDocument "7" (some emptyProject) (.ok ⟨true, .ok ()⟩)).alerts
      = [⟨"Document exported successfully!", "success"⟩] := by
  decide

/-- The function `saveNote` on a snapshot with generated content, at an index
in range: the entry is rewritten in place and sent, whatever the call returns. -/
theorem saveNote_in_range (projectId : String) (p : Project) (content : List Section)
    (i : Nat) (entry : Section) (note : String) (r : Fetched Project)
    (hc : p.generated_content = some content) (he : content[i]? = some entry) :
    (saveNote projectId (some p) (i : Int) (some note) r).currentProject
      = some { p with
          generated_content := some (content.set i { entry with note := some note }) } ∧
    (saveNote projectId (some p) (i : Int) (some note) r).calls
      = [.updateProject projectId
          { outline := none,
            generated_content := some (content.set i { entry with note := some note }) }] ∧
    (saveNote projectId (some p) (i : Int) (some note) r).uncaught = none := by
  have hneg : ¬ ((i : Int) < 0) := by omega
  unfold saveNote
  cases hr : updateProject r <;> simp [hc, hneg, he]

/-- C13: on a snapshot with generated content, for an index `i` in range and a
note `n`, `saveNote` changes only the note of section `i`: its title, content
and feedback, every other section, the number of sections, the outline and the
other project fields are as before. The one update sent carries the
`generated_content` field only (the rewritten sections, no outline), and the
snapshot holds the note `n` whether the persistence call succeeds or fails. -/
theorem saveNote_changes_note_only (projectId : String) (p : Project)
    (content : List Section) (i : Nat) (note : String) (r : Fetched Project)
    (hc : p.generated_content = some content) (hi : i < content.length) :
    ∃ (q : Project) (content' : List Section) (old new : Section),
      (saveNote projectId (some p) (i : Int) (some note) r).currentProject = some q ∧
      q.generated_content = some content' ∧
      q.outline = p.outline ∧ q.topic = p.topic ∧ q.type = p.type ∧
      q.created_at = p.created_at ∧
      content'.length = content.length ∧
      content[i]? = some old ∧ content'[i]? = some new ∧
      new.note = some note ∧
      new.title = old.title ∧ new.content = old.content ∧ new.feedback = old.feedback ∧
      (∀ j, j ≠ i → content'[j]? = content[j]?) ∧
      (saveNote projectId (some p) (i : Int) (some note) r).calls
        = [.updateProject projectId
            { outline := none, generated_content := some content' }] := by
  obtain ⟨entry, he⟩ : ∃ entry, content[i]? = some entry :=
    ⟨content.get ⟨i, hi⟩, by simp [List.getElem?_eq_getElem hi]⟩
  obtain ⟨hcp, hcalls, _⟩ := saveNote_in_range projectId p content i entry note r hc he
  refine ⟨{ p with generated_content := some (content.set i { entry with note := some note }) },
    content.set i { entry with note := some note }, entry, { entry with note := some note },
    hcp, rfl, rfl, rfl, rfl, rfl, List.length_set _ _ _, he, ?_, rfl, rfl, rfl, rfl, ?_, hcalls⟩
  · simp [List.getElem?_set, hi]
  · intro j hj
    simp [List.getElem?_set, Ne.symm hj]

/-- C13 at section `1` of a two-section project, with the network down. -/
theorem saveNote_changes_note_only_witness :
    ∃ (q : Project) (s : Section),
      (saveNote "7" (some readyProject) ((1 : Nat) : Int) (some "check figures")
        offline).currentProject = some q ∧
      q.outline = readyProject.outline ∧
      sectionAt (some q) 0 = sectionAt (some readyProject) 0 ∧
      sectionAt (some q) 1 = some s ∧
      s.note = some "check figures" ∧ s.title = "Body" ∧ s.content = "Main part." := by
  obtain ⟨q, content', old, new, hq, hcontent, ho, _, _, _, _, hold, hnew, hnote,
      htitle, hbody, _, hrest, _⟩ :=
    saveNote_changes_note_only "7" readyProject
      [{ title := "Intro", content := "Long introduction.", note := some "mine",
         feedback := none },
       { title := "Body", content := "Main part.", note := none, feedback := none }]
      1 "check figures" offline rfl (by decide)
  have hold' : old.title = "Body" ∧ old.content = "Main part." := by
    simp at hold
    subst hold
    exact ⟨rfl, rfl⟩
  refine ⟨q, new, hq, ho, ?_, ?_, hnote, ?_, ?_⟩
  · simp only [sectionAt, hcontent, Option.getD_some]
    rw [hrest 0 (by decide)]
    rfl
  · simp only [sectionAt, hcontent, Option.getD_some]
    exact hnew
  · rw [htitle, hold'.1]
  · rw [hbody, hold'.2]

/-! ## Claims on export and on the API error rule -/

/-- C11, amended: `exportDocument` tests no precondition. For every project,
one whose generated content is absent or empty included, it issues exactly one
export request, the address built from the project's type and the project id
only, and leaves the snapshot as it is. It fails, with a danger alert and no
download, exactly when the request is rejected, the response is not ok or
reading the blob fails; otherwise it offers the file `topic.type` for download
and shows the success alert. -/
theorem exportDocument_request (projectId : String) (p : Project) :
    (∀ message : String,
      exportDocument projectId (some p) (.error message)
        = { currentProject := some p, requests := [exportUrl p.type projectId],
            downloads := [], alerts := [⟨message, "danger"⟩], uncaught := none }) ∧
    (∀ blob : Except String Unit,
      exportDocument projectId (some p) (.ok ⟨false, blob⟩)
        = { currentProject := some p, requests := [exportUrl p.type projectId],
            downloads := [], alerts := [⟨"Failed to export document", "danger"⟩],
            uncaught := none }) ∧
    (∀ message : String,
      exportDocument projectId (some p) (.ok ⟨true, .error message⟩)
        = { currentProject := some p, requests := [exportUrl p.type projectId],
            downloads := [], alerts := [⟨message, "danger"⟩], uncaught := none }) ∧
    exportDocument projectId (some p) (.ok ⟨true, .ok ()⟩)
      = { currentProject := some p, requests := [exportUrl p.type projectId],
          downloads := [p.topic ++ "." ++ p.type],
          alerts := [⟨"Document exported successfully!", "success"⟩], uncaught := none } ∧
    (∀ (p' : Project) (r : Except String ExportResponse), p'.type = p.type →
      (exportDocument projectId (some p') r).requests
        = (exportDocument projectId (some p) r).requests) := by
  have hreq : ∀ (q : Project) (s : Except String ExportResponse),
      (exportDocument projectId (some q) s).requests = [exportUrl q.type projectId] := by
    intro q s
    unfold exportDocument
    cases s with
    | error message => rfl
    | ok response =>
      by_cases hok : response.ok = true
      · cases hb : response.blob <;> simp [hok, hb]
      · simp [hok]
  refine ⟨fun _ => rfl, fun _ => rfl, fun _ => rfl, rfl, ?_⟩
  intro p' r ht
  rw [hreq p' r, hreq p r, ht]

/-- C11 amended, at a freshly created project: a rejected request fails with
its message, and an ok response downloads `Quarterly Report.docx`. -/
theorem exportDocument_request_witness :
    (exportDocument "7" (some emptyProject) (.error "Failed to fetch")).alerts
      = [⟨"Failed to fetch", "danger"⟩] ∧
    (exportDocument "7" (some emptyProject) (.ok ⟨true, .ok ()⟩)).downloads
      = ["Quarterly Report.docx"] := by
  refine ⟨?_, ?_⟩
  · rw [(exportDocument_request "7" emptyProject).1 "Failed to fetch"]
  · rw [(exportDocument_request "7" emptyProject).2.2.2.1]
    decide

/-- C12 as stated fails. On a response that is not ok: a `null` body fails with
the `TypeError` of reading `detail`, not the generic text; a detail that is an
array of one object gives the message `[object Object]`; a body that is not JSON
gives the parser's message. On an ok response: a body that is not JSON makes the
call fail, and `suggestOutlineAPI` returns the `outline` field of the data. -/
theorem api_error_rule_counterexample :
    fetchProject (.ok .failureNull) = .error "TypeError" ∧
    updateProject (.ok (.failure validationErrors)) = .error "[object Object]" ∧
    generateContentAPI (.ok (.unparsable false "Unexpected token < in JSON at position 0")
        : Fetched Unit)
      = .error "Unexpected token < in JSON at position 0" ∧
    refineContentAPI (.ok (.unparsable true "Unexpected end of JSON input") : Fetched Unit)
      = .error "Unexpected end of JSON input" ∧
    suggestOutlineAPI (respond ⟨some [some "Intro"]⟩) = .ok (some [some "Intro"]) ∧
    "TypeError" ≠ "Failed to fetch project" ∧
    "Unexpected token < in JSON at position 0" ≠ "Failed to generate content" :=
  ⟨rfl, rfl, rfl, rfl, rfl, by decide, by decide⟩

/-- C12, amended: each of `fetchProject`, `updateProject`, `suggestOutlineAPI`,
`generateContentAPI` and `refineContentAPI` follows the error rule with its own
generic text. On a response that is not ok whose body is JSON and not `null`,
it fails with the detail when that is a non-empty string, with `String(detail)`
when it is another truthy value, and with the generic text when the detail is
absent, `null`, the empty string or another falsy value; when the body is `null`
it fails with the `TypeError` of reading `detail`. On an ok response whose body
parses to the record the page expects it does not fail and returns the data
(`suggestOutlineAPI`: its `outline` field). A rejected `fetch` and a body that does not parse, on an ok response or
not, fail with the thrown error's own message. -/
theorem api_functions_follow_error_rule {γ δ : Type} :
    FollowsErrorRule fetchProject "Failed to fetch project" id ∧
    FollowsErrorRule updateProject "Failed to update project" id ∧
    FollowsErrorRule suggestOutlineAPI "Failed to suggest outline" (fun data => data.outline) ∧
    FollowsErrorRule (generateContentAPI : Fetched γ → Except String γ)
      "Failed to generate content" id ∧
    FollowsErrorRule (refineContentAPI : Fetched δ → Except String δ)
      "Failed to refine content" id := by
  refine ⟨?_, ?_, ?_, ?_, ?_⟩
  · refine ⟨fun _ => rfl, fun _ _ => rfl, fun _ => rfl, rfl, ?_, fun _ => rfl, rfl, rfl,
      rfl, fun _ => rfl⟩
    intro d hd
    simp [fetchProject, orGeneric, hd]
  · refine ⟨fun _ => rfl, fun _ _ => rfl, fun _ => rfl, rfl, ?_, fun _ => rfl, rfl, rfl,
      rfl, fun _ => rfl⟩
    intro d hd
    simp [updateProject, orGeneric, hd]
  · refine ⟨fun _ => rfl, fun _ _ => rfl, fun _ => rfl, rfl, ?_, fun _ => rfl, rfl, rfl,
      rfl, fun _ => rfl⟩
    intro d hd
    simp [suggestOutlineAPI, orGeneric, hd]
  · refine ⟨fun _ => rfl, fun _ _ => rfl, fun _ => rfl, rfl, ?_, fun _ => rfl, rfl, rfl,
      rfl, fun _ => rfl⟩
    intro d hd
    simp [generateContentAPI, orGeneric, hd]
  · refine ⟨fun _ => rfl, fun _ _ => rfl, fun _ => rfl, rfl, ?_, fun _ => rfl, rfl, rfl,
      rfl, fun _ => rfl⟩
    intro d hd
    simp [refineContentAPI, orGeneric, hd]

/-- C12 amended, at `fetchProject`: a string detail is the message, and a
missing detail gives the generic text. -/
theorem api_functions_follow_error_rule_witness :
    fetchProject (.ok (.failure (.str "Project not found"))) = .error "Project not found" ∧
    fetchProject (.ok (.failure .absent)) = .error "Failed to fetch project" :=
  ⟨(@api_functions_follow_error_rule Unit Unit).1.2.2.2.2.1 "Project not found" (by decide),
   (@api_functions_follow_error_rule Unit Unit).1.2.2.2.2.2.2.1⟩

end ProjectJs
